import Mathlib

/-!
Verification of the frontend build hook (`hatch_build.py`) of the
`streamlit-javascript` repository.

The hook is a linear orchestration of external effects: it parses the
frontend manifest (`package.json`), logs informational checks, verifies
the `node` and `npm` toolchain, runs `npm install`, conditionally runs
`npm audit`, runs `npm run build`, and finally checks that the build
output directory exists.

The embedding is a shallow one: every external effect (file contents,
subprocess results, directory existence) is an input, collected in an
`Env` record, and each method of `BuildFrontendHook` becomes a pure
function from `Env` to a trace of observable events (log writes, log
flushes, subprocess invocations) together with an `Except` outcome that
models normal return versus a raised Python exception.
-/

set_option autoImplicit false

namespace HatchBuild

/-! ## Module-level constants of `hatch_build.py` -/

def PACKAGE_MGR : String := "npm"

def PACKAGE_NAME : String := "streamlit-javascript"

def STREAMLIT_VERSION : String := "1.42.0"

/-- Models `PACKAGE_DIR = Path(__file__).resolve().parent`.  The concrete
absolute path depends on where the package is installed, so it is an
arbitrary fixed string here; no claim depends on its value. -/
def PACKAGE_DIR_STR : String := "/site-packages/streamlit-javascript"

/-- `self.frontend_dir = PACKAGE_DIR / "streamlit_javascript" / "frontend"`. -/
def frontendDirStr : String := PACKAGE_DIR_STR ++ "/streamlit_javascript/frontend"

/-- `package_json_path = self.frontend_dir / "package.json"`. -/
def packageJsonPathStr : String := frontendDirStr ++ "/package.json"

/-- Models `os.linesep`.  Its value is platform dependent; the package is
built on POSIX hosts where it is a single newline.  No claim depends on
the concrete value. -/
def os_linesep : String := "\n"

/-! ## Python string primitives used by the hook

`str.splitlines`, truthiness of `str.strip()`, and the substring test
`needle in haystack` are modelled character-exactly, following CPython:
`splitlines` splits at the Unicode line boundaries and treats `\r\n` as a
single boundary; `str.strip()` strips the characters satisfying
`Py_UNICODE_ISSPACE`. -/

/-- CPython line-boundary characters used by `str.splitlines`. -/
def isPyLineBreak (c : Char) : Bool :=
  c.toNat = 10 || c.toNat = 11 || c.toNat = 12 || c.toNat = 13 ||
  c.toNat = 28 || c.toNat = 29 || c.toNat = 30 ||
  c.toNat = 0x85 || c.toNat = 0x2028 || c.toNat = 0x2029

/-- CPython whitespace (`Py_UNICODE_ISSPACE`), as used by `str.strip()`. -/
def isPySpace (c : Char) : Bool :=
  (9 ≤ c.toNat && c.toNat ≤ 13) || (28 ≤ c.toNat && c.toNat ≤ 31) ||
  c.toNat = 32 || c.toNat = 0x85 || c.toNat = 0xa0 || c.toNat = 0x1680 ||
  (0x2000 ≤ c.toNat && c.toNat ≤ 0x200a) ||
  c.toNat = 0x2028 || c.toNat = 0x2029 || c.toNat = 0x202f ||
  c.toNat = 0x205f || c.toNat = 0x3000

/-- First pass of `str.splitlines`: merge each exact `\r\n` pair into a
single boundary by dropping the `\n`, so that the second pass can treat
every line-break character uniformly. -/
def normalizeCRLF : List Char → List Char
  | [] => []
  | [c] => [c]
  | c :: c2 :: rest =>
    if c.toNat = 13 ∧ c2.toNat = 10 then c :: normalizeCRLF rest
    else c :: normalizeCRLF (c2 :: rest)

/-- Worker for `str.splitlines`: `acc` holds the (reversed) characters of
the line being accumulated. -/
def pySplitlinesAux : List Char → List Char → List String
  | [], acc => if acc.isEmpty then [] else [String.mk acc.reverse]
  | c :: rest, acc =>
    if isPyLineBreak c then String.mk acc.reverse :: pySplitlinesAux rest []
    else pySplitlinesAux rest (c :: acc)

/-- Python `str.splitlines()`. -/
def pySplitlines (s : String) : List String :=
  pySplitlinesAux (normalizeCRLF s.toList) []

/-- Python `str.strip()` with no argument: drop CPython whitespace from
both ends. -/
def pyStrip (s : String) : String :=
  String.mk (((s.toList.dropWhile isPySpace).reverse.dropWhile isPySpace).reverse)

/-- Python `needle in haystack` on strings: substring containment. -/
def pyStrIn (needle hay : String) : Bool :=
  decide (needle.toList <:+: hay.toList)

/-- `" " * n`. -/
def spaces (n : Nat) : String := String.mk (List.replicate n ' ')

/-! ## JSON values and the manifest

`json.load` produces Python values; only the shapes that matter to the
hook are modelled.  A `package.json` has an object at top level, so a
successfully parsed manifest is the list of its fields. -/

inductive JsonValue where
  | null
  | bool (b : Bool)
  | num (n : Int)
  | str (s : String)
  | arr (elems : List JsonValue)
  | obj (fields : List (String × JsonValue))

mutual

/-- Python `repr` of the JSON values (used by `str` on lists and dicts).
String escaping of exotic characters inside `repr` of a `str` is not
modelled; none of the claims exercise it. -/
def JsonValue.pyRepr : JsonValue → String
  | JsonValue.null => "None"
  | JsonValue.bool true => "True"
  | JsonValue.bool false => "False"
  | JsonValue.num n => toString n
  | JsonValue.str s => "\x27" ++ s ++ "\x27"
  | JsonValue.arr elems => "[" ++ pyReprElems elems ++ "]"
  | JsonValue.obj fields => "\x7b" ++ pyReprFields fields ++ "\x7d"

def pyReprElems : List JsonValue → String
  | [] => ""
  | [v] => v.pyRepr
  | v :: rest => v.pyRepr ++ ", " ++ pyReprElems rest

def pyReprFields : List (String × JsonValue) → String
  | [] => ""
  | [(k, v)] => "\x27" ++ k ++ "\x27: " ++ v.pyRepr
  | (k, v) :: rest => "\x27" ++ k ++ "\x27: " ++ v.pyRepr ++ ", " ++ pyReprFields rest

end

/-- Python `str(v)`, as used by the f-string interpolation of
`pkg_desc["version"]`: identity on strings, `repr`-like otherwise. -/
def JsonValue.pyStr : JsonValue → String
  | JsonValue.str s => s
  | v => v.pyRepr

/-- Python `v == some_string` for a JSON value: string equality when `v`
is a string, `False` for every other runtime type. -/
def JsonValue.eqStr : JsonValue → String → Bool
  | JsonValue.str s, t => s == t
  | _, _ => false

/-- Lookup of a key in the parsed manifest object.  `json.load` produces
a Python dict, whose keys are unique, so first-match lookup is exact. -/
def lookupField (fields : List (String × JsonValue)) (key : String) : Option JsonValue :=
  match fields with
  | [] => none
  | (k, v) :: rest => if k == key then some v else lookupField rest key

/-! ## Process-execution records, errors, events -/

/-- `subprocess.CompletedProcess` with `text=True`. -/
structure CompletedProcess where
  returncode : Int
  stdout : String
  stderr : String
deriving DecidableEq, Repr

/-- An operating-system level error (e.g. `FileNotFoundError`), carrying
its rendered message. -/
structure OSErr where
  msg : String
deriving DecidableEq, Repr

/-- The data of a `json.decoder.JSONDecodeError` produced by `json.load`:
its bare message and character position (the original `doc` is the file
body and is discarded by the re-raise, so it is not recorded). -/
structure PyJsonDecodeError where
  msg : String
  pos : Nat
deriving DecidableEq, Repr

/-- The exceptions that can escape `BuildFrontendHook._run`:
`BuildErrorException(msg)`, a re-raised
`json.decoder.JSONDecodeError(msg, doc, pos)`, or an uncaught OS error. -/
inductive RunError where
  | buildError (msg : String)
  | jsonDecodeError (msg : String) (doc : String) (pos : Nat)
  | osError (e : OSErr)
deriving DecidableEq, Repr

/-- Observable events of one run: a raw write to the log file, a flush of
the log file, and the launch of a subprocess with its argument list and
working directory. -/
inductive Event where
  | write (s : String)
  | flush
  | runProc (args : List String) (cwd : String)
deriving DecidableEq, Repr

/-- The external world consumed by one run: the result of opening and
parsing `package.json`, directory-existence answers, and the result of
each subprocess launch (either an OS error raised by `subprocess.run`
itself, or the completed process). -/
structure Env where
  logOpen : Except OSErr Unit
  pkgJsonOpen : Except OSErr (Except PyJsonDecodeError (List (String × JsonValue)))
  buildDirExistsBefore : Bool
  modulesDirExists : Bool
  nodeRun : Except OSErr CompletedProcess
  npmRun : Except OSErr CompletedProcess
  corepackRun : Except OSErr CompletedProcess
  installRun : Except OSErr CompletedProcess
  auditRun : Except OSErr CompletedProcess
  buildRun : Except OSErr CompletedProcess
  buildDirExistsAfter : Bool

/-! ## The logging primitive `_msg_log` and `_msg_run` -/

/-- The write events of `_msg_log`: one write per non-blank line (the
loop body `if line.strip(): self.log_file.write(" " * indent + line +
os.linesep)`). -/
def msg_log_writes : List String → Nat → List Event
  | [], _ => []
  | line :: rest, indent =>
    (if pyStrip line ≠ "" then [Event.write (spaces indent ++ line ++ os_linesep)] else []) ++
      msg_log_writes rest indent

/-- `BuildFrontendHook._msg_log(msg, indent)`: split into lines, write
the non-blank ones with the indent prefix, then flush once. -/
def msg_log (msg : String) (indent : Nat) : List Event :=
  msg_log_writes (pySplitlines msg) indent ++ [Event.flush]

/-- `BuildFrontendHook._msg_run(result, indent)`: log the return code,
then the stdout block, then the stderr block. -/
def msg_run (result : CompletedProcess) (indent : Nat) : List Event :=
  msg_log ("RC:" ++ toString result.returncode) indent ++
  msg_log ("STDOUT:") indent ++
  msg_log result.stdout (indent + 2) ++
  msg_log ("STDERR:") indent ++
  msg_log result.stderr (indent + 2)

/-! ## The individual steps of `_run` -/

/-- `BuildFrontendHook._check_package_json`.  The `open` happens before
the `try`, so an OS error while opening propagates as-is; inside the
`try`, a `json.decoder.JSONDecodeError` is logged and re-raised with the
file path and original position; a missing or mismatched `version` field
only logs a warning. -/
def check_package_json (env : Env) : List Event × Except RunError Unit :=
  let pre := msg_log ("Checking package.json version...") 0
  match env.pkgJsonOpen with
  | Except.error e => (pre, Except.error (RunError.osError e))
  | Except.ok parsed =>
    match parsed with
    | Except.error exc =>
      (pre ++ msg_log ("Unable to read package.json file - syntax error") 0,
       Except.error
         (RunError.jsonDecodeError ("package.json: " ++ exc.msg) packageJsonPathStr exc.pos))
    | Except.ok pkg_desc =>
      match lookupField pkg_desc ("version") with
      | none =>
        (pre ++
           msg_log ("WARNING: package.json:version is missing, should be " ++ STREAMLIT_VERSION) 0,
         Except.ok ())
      | some v =>
        if v.eqStr STREAMLIT_VERSION = false then
          (pre ++
             msg_log ("WARNING: package.json:version should be " ++ STREAMLIT_VERSION ++
               " not " ++ v.pyStr) 0,
           Except.ok ())
        else (pre, Except.ok ())

/-- `BuildFrontendHook._check_need_protobuf`: purely informational. -/
def check_need_protobuf : List Event :=
  msg_log (PACKAGE_NAME ++ " does not use protobuf...") 0

/-- `BuildFrontendHook._show_msg_if_build_dir_exists`: informational. -/
def show_msg_if_build_dir_exists (env : Env) : List Event :=
  msg_log ("Checking if frontend has already been built...") 0 ++
    (if env.buildDirExistsBefore then msg_log ("Found build directory") 2 else [])

/-- `BuildFrontendHook._show_msg_if_modules_dir_exists`: informational. -/
def show_msg_if_modules_dir_exists (env : Env) : List Event :=
  msg_log ("Checking if node_modules exists...") 0 ++
    (if env.modulesDirExists then msg_log ("Found node_modules directory") 2 else [])

/-- `BuildFrontendHook._check_node_installed`: run `node --version`; on a
non-zero return code raise `BuildErrorException`; an OS error raised by
`subprocess.run` itself is not caught. -/
def check_node_installed (env : Env) : List Event × Except RunError CompletedProcess :=
  let pre := msg_log ("Checking node is installed...") 0 ++
    [Event.runProc ["node", "--version"] PACKAGE_DIR_STR]
  match env.nodeRun with
  | Except.error e => (pre, Except.error (RunError.osError e))
  | Except.ok result =>
    (pre ++ msg_run result 2,
     if result.returncode ≠ 0 then
       Except.error (RunError.buildError ("Could not find node - it is required for React components"))
     else Except.ok result)

/-- `BuildFrontendHook._check_pkgmgr_installed`: run `npm --version`; the
corepack branch is only taken when `PACKAGE_MGR == "yarn"` (dead with the
module constant `"npm"`, translated faithfully); on a non-zero return
code raise `BuildErrorException`. -/
def check_pkgmgr_installed (env : Env) : List Event × Except RunError CompletedProcess :=
  let pre := msg_log ("Checking " ++ PACKAGE_MGR ++ " is installed...") 0 ++
    [Event.runProc [PACKAGE_MGR, "--version"] PACKAGE_DIR_STR]
  match env.npmRun with
  | Except.error e => (pre, Except.error (RunError.osError e))
  | Except.ok result0 =>
    let evs0 := pre ++ msg_run result0 2
    -- The source rebinds `result` inside the `PACKAGE_MGR == "yarn"` branch
    -- (dead code for the module constant `"npm"`), so the final
    -- `if result.returncode != 0` check applies to the corepack result
    -- there and to the `npm --version` result otherwise.
    if PACKAGE_MGR = "yarn" then
      let evs1 := evs0 ++ msg_log ("Checking yarn corepack is installed") 0 ++
        [Event.runProc ["corepack", "enable"] PACKAGE_DIR_STR]
      match env.corepackRun with
      | Except.error e => (evs1, Except.error (RunError.osError e))
      | Except.ok result1 =>
        let evs2 := evs1 ++ msg_run result1 2
        if result1.returncode ≠ 0 then
          (evs2,
           Except.error (RunError.buildError ("Could not find corepack/" ++ PACKAGE_MGR ++
             " - it is required to install node packages")))
        else if result1.returncode ≠ 0 then
          (evs2,
           Except.error (RunError.buildError ("Could not find " ++ PACKAGE_MGR ++
             " - it is required to install node packages")))
        else (evs2, Except.ok result1)
    else
      if result0.returncode ≠ 0 then
        (evs0,
         Except.error (RunError.buildError ("Could not find " ++ PACKAGE_MGR ++
           " - it is required to install node packages")))
      else (evs0, Except.ok result0)

/-- `BuildFrontendHook._run_install`: run `npm install` in the frontend
directory; the return code is not inspected. -/
def run_install (env : Env) : List Event × Except RunError CompletedProcess :=
  let pre := msg_log ("Running " ++ PACKAGE_MGR ++ " install...") 0 ++
    [Event.runProc [PACKAGE_MGR, "install"] frontendDirStr]
  match env.installRun with
  | Except.error e => (pre, Except.error (RunError.osError e))
  | Except.ok result => (pre ++ msg_run result 2, Except.ok result)

/-- `BuildFrontendHook._run_npm_audit`: run `npm audit`; the result is
logged but not inspected. -/
def run_npm_audit (env : Env) : List Event × Except RunError CompletedProcess :=
  let pre := msg_log ("Running npm audit...") 0 ++
    [Event.runProc [PACKAGE_MGR, "audit"] frontendDirStr]
  match env.auditRun with
  | Except.error e => (pre, Except.error (RunError.osError e))
  | Except.ok result => (pre ++ msg_run result 2, Except.ok result)

/-- `BuildFrontendHook._run_build`: run `npm run build` in the frontend
directory; the return code is not inspected. -/
def run_build (env : Env) : List Event × Except RunError CompletedProcess :=
  let pre := msg_log ("Running " ++ PACKAGE_MGR ++ " run build...") 0 ++
    [Event.runProc [PACKAGE_MGR, "run", "build"] frontendDirStr]
  match env.buildRun with
  | Except.error e => (pre, Except.error (RunError.osError e))
  | Except.ok result => (pre ++ msg_run result 2, Except.ok result)

/-- The conditional remediation of `_run`:
`if "npm audit fix" in result.stdout: self._run_npm_audit()`. -/
def auditStep (env : Env) (installResult : CompletedProcess) : List Event × Except RunError Unit :=
  if pyStrIn ("npm audit fix") installResult.stdout then
    ((run_npm_audit env).1, (run_npm_audit env).2.map fun _ => ())
  else ([], Except.ok ())

/-- `BuildFrontendHook._check_build_output_ok`: success if and only if
the build output directory exists after the build. -/
def check_build_output_ok (env : Env) : List Event × Except RunError Unit :=
  let pre := msg_log ("Checking if frontend was built...") 0
  if env.buildDirExistsAfter then
    (pre ++ msg_log ("Found build directory") 2, Except.ok ())
  else (pre, Except.error (RunError.buildError ("Failed to create output directory")))

/-! ## Sequencing -/

/-- Sequencing of steps: a raised exception aborts the remainder of
`_run`; the events of a step precede those of the following steps. -/
def runStep {α β : Type} (x : List Event × Except RunError α)
    (f : α → List Event × Except RunError β) : List Event × Except RunError β :=
  match x.2 with
  | Except.error e => (x.1, Except.error e)
  | Except.ok a => (x.1 ++ (f a).1, (f a).2)

/-- `BuildFrontendHook._run`: the fixed sequence of steps. -/
def run (env : Env) : List Event × Except RunError Unit :=
  runStep (check_package_json env) fun _ =>
  runStep (check_need_protobuf, Except.ok ()) fun _ =>
  runStep (show_msg_if_build_dir_exists env, Except.ok ()) fun _ =>
  runStep (show_msg_if_modules_dir_exists env, Except.ok ()) fun _ =>
  runStep (check_node_installed env) fun _ =>
  runStep (check_pkgmgr_installed env) fun _ =>
  runStep (run_install env) fun result =>
  runStep (auditStep env result) fun _ =>
  runStep (run_build env) fun _ =>
  check_build_output_ok env

/-- The process-wide state mutated by the hook: the current working
directory. -/
structure OsState where
  cwd : String
deriving DecidableEq, Repr

/-- Result of one invocation of the entry point. -/
structure HookResult where
  events : List Event
  outcome : Except RunError Unit
  finalState : OsState

/-- `BuildFrontendHook.initialize(version, build_data)`: save the current
working directory, `chdir` into the package directory, open the log file
and run `_run`; the `finally` block restores the original working
directory on every exit path (normal return or any raised exception). -/
def hookEntry (env : Env) (s : OsState) : HookResult :=
  let original_directory := s.cwd
  -- `os.chdir(PACKAGE_DIR)` sets the state to `{ cwd := PACKAGE_DIR_STR }`
  -- inside the `try`; nothing in `_run` changes the working directory
  -- again (subprocesses receive their `cwd` as an explicit argument), and
  -- the `finally` block runs `os.chdir(original_directory)` on every
  -- exit path, so the final state is the saved one unconditionally.
  let body : List Event × Except RunError Unit :=
    match env.logOpen with
    | Except.error e => ([], Except.error (RunError.osError e))
    | Except.ok _ => run env
  { events := body.1, outcome := body.2, finalState := { cwd := original_directory } }

/-! ## Counting subprocess invocations in a trace -/

/-- Does the event launch a subprocess with exactly this argument list? -/
def isRunProcFor (args : List String) (e : Event) : Bool :=
  match e with
  | Event.runProc a _ => a == args
  | _ => false

/-- Number of launches of the subprocess `args` in a trace. -/
def countProc (evs : List Event) (args : List String) : Nat :=
  evs.countP (isRunProcFor args)

theorem isRunProcFor_write (args : List String) (s : String) :
    isRunProcFor args (Event.write s) = false := rfl

theorem isRunProcFor_flush (args : List String) :
    isRunProcFor args Event.flush = false := rfl

theorem isRunProcFor_runProc (args a : List String) (cwd : String) :
    isRunProcFor args (Event.runProc a cwd) = (a == args) := rfl

theorem countProc_nil (args : List String) : countProc [] args = 0 := rfl

theorem countProc_append (xs ys : List Event) (args : List String) :
    countProc (xs ++ ys) args = countProc xs args + countProc ys args := by
  simp [countProc, List.countP_append]

theorem countProc_cons (e : Event) (evs : List Event) (args : List String) :
    countProc (e :: evs) args = countProc evs args + (if isRunProcFor args e then 1 else 0) := by
  simp [countProc, List.countP_cons]

theorem countP_msg_log_writes (ls : List String) (i : Nat) (args : List String) :
    (msg_log_writes ls i).countP (isRunProcFor args) = 0 := by
  induction ls with
  | nil => rfl
  | cons l rest ih =>
    by_cases h : pyStrip l = "" <;>
      simp [msg_log_writes, h, ih, isRunProcFor, List.countP_cons, List.countP_append]

theorem countProc_msg_log (m : String) (i : Nat) (args : List String) :
    countProc (msg_log m i) args = 0 := by
  simp [countProc, msg_log, List.countP_append, countP_msg_log_writes, isRunProcFor,
    List.countP_cons]

theorem countProc_msg_run (r : CompletedProcess) (i : Nat) (args : List String) :
    countProc (msg_run r i) args = 0 := by
  simp [msg_run, countProc_append, countProc_msg_log]

theorem countProc_singleProc (a : List String) (cwd : String) (args : List String) :
    countProc [Event.runProc a cwd] args = if a = args then 1 else 0 := by
  by_cases h : a = args <;> simp [countProc, List.countP_cons, isRunProcFor, h]

theorem countProc_check_package_json (env : Env) (args : List String) :
    countProc (check_package_json env).1 args = 0 := by
  unfold check_package_json
  rcases hpj : env.pkgJsonOpen with e | (exc | pkg)
  · simp [countProc_msg_log]
  · simp [countProc_append, countProc_msg_log]
  · rcases hl : lookupField pkg ("version") with _ | v <;> simp only [hl]
    · simp [countProc_append, countProc_msg_log]
    · split <;> simp [countProc_append, countProc_msg_log]

theorem countProc_check_need_protobuf (args : List String) :
    countProc check_need_protobuf args = 0 := by
  simp [check_need_protobuf, countProc_msg_log]

theorem countProc_show_build (env : Env) (args : List String) :
    countProc (show_msg_if_build_dir_exists env) args = 0 := by
  unfold show_msg_if_build_dir_exists
  split <;> simp [countProc_append, countProc_msg_log, countProc_nil]

theorem countProc_show_modules (env : Env) (args : List String) :
    countProc (show_msg_if_modules_dir_exists env) args = 0 := by
  unfold show_msg_if_modules_dir_exists
  split <;> simp [countProc_append, countProc_msg_log, countProc_nil]

theorem countProc_check_node_installed (env : Env) (args : List String) :
    countProc (check_node_installed env).1 args = if ["node", "--version"] = args then 1 else 0 := by
  unfold check_node_installed
  rcases hn : env.nodeRun with e | r <;>
    simp [countProc_append, countProc_cons, countProc_msg_log, countProc_msg_run,
      countProc_nil, countProc_singleProc, isRunProcFor_runProc, beq_iff_eq]

theorem countProc_check_pkgmgr_installed (env : Env) (args : List String) :
    countProc (check_pkgmgr_installed env).1 args =
      if [PACKAGE_MGR, "--version"] = args then 1 else 0 := by
  unfold check_pkgmgr_installed
  rcases hm : env.npmRun with e | r
  · simp [countProc_append, countProc_cons, countProc_msg_log, countProc_msg_run,
      countProc_nil, countProc_singleProc, isRunProcFor_runProc, beq_iff_eq, PACKAGE_MGR]
  · simp only [PACKAGE_MGR]
    simp only [show ("npm" = "yarn") = False by simp]
    simp only [if_false]
    split <;>
      simp [countProc_append, countProc_cons, countProc_msg_log, countProc_msg_run,
        countProc_nil, countProc_singleProc, isRunProcFor_runProc, beq_iff_eq, PACKAGE_MGR]

theorem countProc_run_install (env : Env) (args : List String) :
    countProc (run_install env).1 args = if [PACKAGE_MGR, "install"] = args then 1 else 0 := by
  unfold run_install
  rcases hi : env.installRun with e | r <;>
    simp [countProc_append, countProc_cons, countProc_msg_log, countProc_msg_run,
      countProc_nil, countProc_singleProc, isRunProcFor_runProc, beq_iff_eq]

theorem countProc_run_npm_audit (env : Env) (args : List String) :
    countProc (run_npm_audit env).1 args = if [PACKAGE_MGR, "audit"] = args then 1 else 0 := by
  unfold run_npm_audit
  rcases ha : env.auditRun with e | r <;>
    simp [countProc_append, countProc_cons, countProc_msg_log, countProc_msg_run,
      countProc_nil, countProc_singleProc, isRunProcFor_runProc, beq_iff_eq]

theorem countProc_run_build (env : Env) (args : List String) :
    countProc (run_build env).1 args = if [PACKAGE_MGR, "run", "build"] = args then 1 else 0 := by
  unfold run_build
  rcases hb : env.buildRun with e | r <;>
    simp [countProc_append, countProc_cons, countProc_msg_log, countProc_msg_run,
      countProc_nil, countProc_singleProc, isRunProcFor_runProc, beq_iff_eq]

theorem countProc_auditStep (env : Env) (ri : CompletedProcess) (args : List String) :
    countProc (auditStep env ri).1 args =
      if pyStrIn ("npm audit fix") ri.stdout then
        (if [PACKAGE_MGR, "audit"] = args then 1 else 0)
      else 0 := by
  unfold auditStep
  split
  · simp [countProc_run_npm_audit]
  · simp [countProc]

theorem countProc_check_build_output_ok (env : Env) (args : List String) :
    countProc (check_build_output_ok env).1 args = 0 := by
  unfold check_build_output_ok
  split <;> simp [countProc_append, countProc_msg_log]

/-! ## Outcome lemmas for the successful paths of each step -/

theorem check_package_json_snd (env : Env) (pkg : List (String × JsonValue))
    (h : env.pkgJsonOpen = Except.ok (Except.ok pkg)) :
    (check_package_json env).2 = Except.ok () := by
  unfold check_package_json
  rw [h]
  rcases hl : lookupField pkg ("version") with _ | v
  · simp only [hl]
  · simp only [hl]
    split <;> rfl

theorem check_node_installed_snd (env : Env) (r : CompletedProcess)
    (h : env.nodeRun = Except.ok r) (h0 : r.returncode = 0) :
    (check_node_installed env).2 = Except.ok r := by
  unfold check_node_installed
  rw [h]
  simp [h0]

theorem check_pkgmgr_installed_snd (env : Env) (r : CompletedProcess)
    (h : env.npmRun = Except.ok r) (h0 : r.returncode = 0) :
    (check_pkgmgr_installed env).2 = Except.ok r := by
  unfold check_pkgmgr_installed
  rw [h]
  simp [PACKAGE_MGR, h0]

theorem run_install_snd (env : Env) (r : CompletedProcess)
    (h : env.installRun = Except.ok r) :
    (run_install env).2 = Except.ok r := by
  unfold run_install
  rw [h]

theorem run_build_snd (env : Env) (r : CompletedProcess)
    (h : env.buildRun = Except.ok r) :
    (run_build env).2 = Except.ok r := by
  unfold run_build
  rw [h]

theorem auditStep_snd (env : Env) (ri ra : CompletedProcess)
    (h : env.auditRun = Except.ok ra) :
    (auditStep env ri).2 = Except.ok () := by
  unfold auditStep run_npm_audit
  rw [h]
  split <;> simp [Except.map]

theorem check_build_output_ok_snd (env : Env) :
    (check_build_output_ok env).2 =
      if env.buildDirExistsAfter then Except.ok ()
      else Except.error (RunError.buildError ("Failed to create output directory")) := by
  unfold check_build_output_ok
  split <;> simp

/-! ## Characterization of the logging primitive -/

/-- Truthiness of `line.strip()`: the stripped string is empty exactly
when the line has no non-whitespace character. -/
theorem pyStrip_eq_empty_iff (l : String) :
    pyStrip l = "" ↔ (l.toList.any fun c => !isPySpace c) = false := by
  unfold pyStrip
  constructor
  · intro h
    have h2 : ((l.toList.dropWhile isPySpace).reverse.dropWhile isPySpace).reverse = [] := by
      have := congrArg String.data h
      simpa using this
    rw [List.reverse_eq_nil_iff, List.dropWhile_eq_nil_iff] at h2
    rw [List.any_eq_false]
    intro c hc
    rw [← List.takeWhile_append_dropWhile (p := isPySpace) (l := l.toList)] at hc
    rcases List.mem_append.mp hc with hct | hcd
    · simp [List.mem_takeWhile_imp hct]
    · simp [h2 c (List.mem_reverse.mpr hcd)]
  · intro h
    have hall : ∀ c ∈ l.toList, isPySpace c = true := by
      intro c hc
      by_contra hil
      have : l.toList.any (fun c => !isPySpace c) = true :=
        List.any_eq_true.mpr ⟨c, hc, by simp [Bool.eq_false_iff.mpr hil]⟩
      rw [this] at h
      cases h
    have h1 : List.dropWhile isPySpace l.data = [] := List.dropWhile_eq_nil_iff.mpr hall
    simp [h1]

/-- `_msg_log` writes exactly the non-blank lines of the message, each
with the indent prefix and the platform line separator, in order,
followed by a single flush. -/
theorem msg_log_eq_filter_map (msg : String) (indent : Nat) :
    msg_log msg indent =
      ((pySplitlines msg).filter fun l => l.toList.any fun c => !isPySpace c).map
        (fun l => Event.write (spaces indent ++ l ++ os_linesep)) ++ [Event.flush] := by
  unfold msg_log
  congr 1
  generalize pySplitlines msg = ls
  induction ls with
  | nil => rfl
  | cons l rest ih =>
    by_cases h : pyStrip l = ""
    · have hb : (l.data.any fun c => !isPySpace c) = false := (pyStrip_eq_empty_iff l).mp h
      simp [msg_log_writes, h, hb, ih]
    · have hb : (l.data.any fun c => !isPySpace c) = true := by
        rcases Bool.eq_false_or_eq_true (l.data.any fun c => !isPySpace c) with ht | hf
        · exact ht
        · exact absurd ((pyStrip_eq_empty_iff l).mpr hf) h
      simp [msg_log_writes, h, hb, ih]

/-! ## Single-line messages -/

/-- `normalizeCRLF` is the identity on lists without line breaks (in
particular without carriage returns). -/
theorem normalizeCRLF_no_break :
    ∀ l : List Char, (∀ c ∈ l, isPyLineBreak c = false) → normalizeCRLF l = l
  | [], _ => rfl
  | [_], _ => rfl
  | c :: c2 :: rest, h => by
    have hc : isPyLineBreak c = false := h c (by simp)
    have h13 : ¬(c.toNat = 13 ∧ c2.toNat = 10) := by
      rintro ⟨h13, _⟩
      simp [isPyLineBreak, h13] at hc
    rw [normalizeCRLF, if_neg h13,
      normalizeCRLF_no_break (c2 :: rest) (fun x hx => h x (List.mem_cons_of_mem _ hx))]

theorem pySplitlinesAux_no_break :
    ∀ (l acc : List Char), (∀ c ∈ l, isPyLineBreak c = false) →
      (acc ≠ [] ∨ l ≠ []) → pySplitlinesAux l acc = [String.mk (acc.reverse ++ l)]
  | [], acc, _, hne => by
    rcases hne with hacc | hl
    · simp [pySplitlinesAux, List.isEmpty_iff, hacc]
    · exact absurd rfl hl
  | c :: rest, acc, h, _ => by
    have hc : isPyLineBreak c = false := h c (by simp)
    rw [pySplitlinesAux, if_neg (by simp [hc]),
      pySplitlinesAux_no_break rest (c :: acc) (fun x hx => h x (List.mem_cons_of_mem _ hx))
        (Or.inl (by simp))]
    simp

/-- A non-empty message without line-break characters is a single line. -/
theorem pySplitlines_no_break (s : String)
    (h : ∀ c ∈ s.toList, isPyLineBreak c = false) (hne : s.toList ≠ []) :
    pySplitlines s = [s] := by
  unfold pySplitlines
  rw [normalizeCRLF_no_break s.toList h,
    pySplitlinesAux_no_break s.toList [] h (Or.inr hne)]
  cases s
  rfl

theorem pyStrIn_iff (needle hay : String) :
    pyStrIn needle hay = true ↔ needle.toList <:+: hay.toList := by
  simp [pyStrIn]

theorem toList_append (a b : String) : (a ++ b).toList = a.toList ++ b.toList :=
  String.data_append a b

/-! ## A closed form for the outcome of a run

`runOutcome` is a derived closed form of `(run env).2`, proven equal to
it in `run_snd`; it only exists to make case analysis on the possible
raised errors convenient. -/

def buildPhaseOutcome (env : Env) : Except RunError Unit :=
  match env.buildRun with
  | Except.error e => Except.error (RunError.osError e)
  | Except.ok _ =>
    if env.buildDirExistsAfter then Except.ok ()
    else Except.error (RunError.buildError ("Failed to create output directory"))

def afterInstallOutcome (env : Env) (ri : CompletedProcess) : Except RunError Unit :=
  if pyStrIn ("npm audit fix") ri.stdout then
    match env.auditRun with
    | Except.error e => Except.error (RunError.osError e)
    | Except.ok _ => buildPhaseOutcome env
  else buildPhaseOutcome env

def runOutcome (env : Env) : Except RunError Unit :=
  match env.pkgJsonOpen with
  | Except.error e => Except.error (RunError.osError e)
  | Except.ok (Except.error exc) =>
    Except.error
      (RunError.jsonDecodeError ("package.json: " ++ exc.msg) packageJsonPathStr exc.pos)
  | Except.ok (Except.ok _) =>
    match env.nodeRun with
    | Except.error e => Except.error (RunError.osError e)
    | Except.ok rn =>
      if rn.returncode ≠ 0 then
        Except.error
          (RunError.buildError ("Could not find node - it is required for React components"))
      else
        match env.npmRun with
        | Except.error e => Except.error (RunError.osError e)
        | Except.ok rm =>
          if rm.returncode ≠ 0 then
            Except.error
              (RunError.buildError ("Could not find " ++ PACKAGE_MGR ++
                " - it is required to install node packages"))
          else
            match env.installRun with
            | Except.error e => Except.error (RunError.osError e)
            | Except.ok ri => afterInstallOutcome env ri

theorem runStep_snd {α β : Type} (x : List Event × Except RunError α)
    (f : α → List Event × Except RunError β) :
    (runStep x f).2 =
      match x.2 with
      | Except.error e => Except.error e
      | Except.ok a => (f a).2 := by
  rcases hx : x.2 with e | a <;> simp [runStep, hx]

theorem runStep_fst {α β : Type} (x : List Event × Except RunError α)
    (f : α → List Event × Except RunError β) :
    (runStep x f).1 =
      match x.2 with
      | Except.error _ => x.1
      | Except.ok a => x.1 ++ (f a).1 := by
  rcases hx : x.2 with e | a <;> simp [runStep, hx]

theorem check_package_json_snd_eq (env : Env) :
    (check_package_json env).2 =
      match env.pkgJsonOpen with
      | Except.error e => Except.error (RunError.osError e)
      | Except.ok (Except.error exc) =>
        Except.error
          (RunError.jsonDecodeError ("package.json: " ++ exc.msg) packageJsonPathStr exc.pos)
      | Except.ok (Except.ok _) => Except.ok () := by
  unfold check_package_json
  rcases hpj : env.pkgJsonOpen with e | (exc | pkg) <;> simp only [hpj]
  rcases hl : lookupField pkg ("version") with _ | v
  · simp only [hl]
  · simp only [hl]
    split <;> rfl

theorem check_node_installed_snd_eq (env : Env) :
    (check_node_installed env).2 =
      match env.nodeRun with
      | Except.error e => Except.error (RunError.osError e)
      | Except.ok r =>
        if r.returncode ≠ 0 then
          Except.error
            (RunError.buildError ("Could not find node - it is required for React components"))
        else Except.ok r := by
  unfold check_node_installed
  rcases h : env.nodeRun with e | r <;> simp only [h]

theorem check_pkgmgr_installed_snd_eq (env : Env) :
    (check_pkgmgr_installed env).2 =
      match env.npmRun with
      | Except.error e => Except.error (RunError.osError e)
      | Except.ok r =>
        if r.returncode ≠ 0 then
          Except.error
            (RunError.buildError ("Could not find " ++ PACKAGE_MGR ++
              " - it is required to install node packages"))
        else Except.ok r := by
  unfold check_pkgmgr_installed
  rcases h : env.npmRun with e | r <;> simp only [h]
  simp only [PACKAGE_MGR]
  simp only [show ("npm" = "yarn") = False by simp]
  simp only [if_false]
  split <;> simp_all

theorem run_install_snd_eq (env : Env) :
    (run_install env).2 =
      match env.installRun with
      | Except.error e => Except.error (RunError.osError e)
      | Except.ok r => Except.ok r := by
  unfold run_install
  rcases h : env.installRun with e | r <;> simp only [h]

theorem run_build_snd_eq (env : Env) :
    (run_build env).2 =
      match env.buildRun with
      | Except.error e => Except.error (RunError.osError e)
      | Except.ok r => Except.ok r := by
  unfold run_build
  rcases h : env.buildRun with e | r <;> simp only [h]

theorem auditStep_snd_eq (env : Env) (ri : CompletedProcess) :
    (auditStep env ri).2 =
      if pyStrIn ("npm audit fix") ri.stdout then
        match env.auditRun with
        | Except.error e => Except.error (RunError.osError e)
        | Except.ok _ => Except.ok ()
      else Except.ok () := by
  unfold auditStep run_npm_audit
  split
  · rcases h : env.auditRun with e | r <;> simp only [h] <;> rfl
  · rfl

/-- The outcome of `_run` in closed form. -/
theorem run_snd (env : Env) : (run env).2 = runOutcome env := by
  unfold run runOutcome afterInstallOutcome buildPhaseOutcome
  simp only [runStep_snd, check_package_json_snd_eq, check_node_installed_snd_eq,
    check_pkgmgr_installed_snd_eq, run_install_snd_eq, run_build_snd_eq, auditStep_snd_eq,
    check_build_output_ok_snd]
  rcases hpj : env.pkgJsonOpen with e | (exc | pkg) <;> simp only [hpj]
  rcases hn : env.nodeRun with e | rn <;> simp only [hn]
  by_cases hrn : rn.returncode = 0
  · have hc1 : (rn.returncode ≠ 0) = False := eq_false (by simp [hrn])
    simp only [hc1, if_false]
    rcases hm : env.npmRun with e | rm <;> simp only [hm]
    by_cases hrm : rm.returncode = 0
    · have hc2 : (rm.returncode ≠ 0) = False := eq_false (by simp [hrm])
      simp only [hc2, if_false]
      rcases hi : env.installRun with e | ri <;> simp only [hi]
      by_cases hfix : pyStrIn ("npm audit fix") ri.stdout = true
      · simp only [hfix, if_true]
        rcases ha : env.auditRun with e | ra <;> simp only [ha]
        rcases hb : env.buildRun with e | rb <;> simp only [hb]
      · rw [Bool.not_eq_true] at hfix
        simp only [hfix, Bool.false_eq_true, if_false]
        rcases hb : env.buildRun with e | rb <;> simp only [hb]
    · have hc2 : (rm.returncode ≠ 0) = True := eq_true hrm
      simp [hc2]
  · have hc1 : (rn.returncode ≠ 0) = True := eq_true hrn
    simp [hc1]

/-! ## Outcome classifiers and concrete environments -/

/-- Is the error a raised `BuildErrorException`? -/
def RunError.isBuildError : RunError → Bool
  | RunError.buildError _ => true
  | _ => false

/-- Is the error a raised `json.decoder.JSONDecodeError`? -/
def RunError.isJsonDecodeError : RunError → Bool
  | RunError.jsonDecodeError _ _ _ => true
  | _ => false

/-- Did the run raise a `BuildErrorException`? -/
def outcomeIsBuildError : Except RunError Unit → Bool
  | Except.error (RunError.buildError _) => true
  | _ => false

/-- A completed process with exit code 0 and empty output. -/
def okProc : CompletedProcess := { returncode := 0, stdout := "", stderr := "" }

/-- A fully successful environment: well-formed manifest with the
expected version, all subprocesses succeed, the output directory exists
after the build. -/
def baseEnv : Env :=
  { logOpen := Except.ok (),
    pkgJsonOpen := Except.ok (Except.ok [("version", JsonValue.str STREAMLIT_VERSION)]),
    buildDirExistsBefore := false,
    modulesDirExists := false,
    nodeRun := Except.ok okProc,
    npmRun := Except.ok okProc,
    corepackRun := Except.ok okProc,
    installRun := Except.ok okProc,
    auditRun := Except.ok okProc,
    buildRun := Except.ok okProc,
    buildDirExistsAfter := true }

/-! ## Claim C1 -/

/-- C1: for a manifest whose body does not parse, the orchestrator raises
the distinguished parse error — the re-raised `json.decoder.JSONDecodeError`
carrying the manifest file path and the original parse position — and
neither the runtime version check (`node --version`) nor the
package-manager version check (`npm --version`) is ever invoked. -/
theorem claim1_parse_error_aborts (env : Env) (exc : PyJsonDecodeError)
    (h : env.pkgJsonOpen = Except.ok (Except.error exc)) :
    (run env).2 =
      Except.error
        (RunError.jsonDecodeError ("package.json: " ++ exc.msg) packageJsonPathStr exc.pos) ∧
    countProc (run env).1 ["node", "--version"] = 0 ∧
    countProc (run env).1 [PACKAGE_MGR, "--version"] = 0 := by
  have hsnd : (check_package_json env).2 =
      Except.error
        (RunError.jsonDecodeError ("package.json: " ++ exc.msg) packageJsonPathStr exc.pos) := by
    rw [check_package_json_snd_eq, h]
  have hfst : (run env).1 = (check_package_json env).1 := by
    unfold run
    rw [runStep_fst, hsnd]
  refine ⟨?_, ?_, ?_⟩
  · rw [run_snd]
    unfold runOutcome
    rw [h]
  · rw [hfst, countProc_check_package_json]
  · rw [hfst, countProc_check_package_json]

/-- An environment whose manifest body is syntactically invalid. -/
def envParseErr : Env :=
  { baseEnv with pkgJsonOpen := Except.ok (Except.error { msg := "Expecting value", pos := 2 }) }

/-- Witness for C1 at a concrete environment. -/
theorem claim1_witness :
    envParseErr.pkgJsonOpen = Except.ok (Except.error { msg := "Expecting value", pos := 2 }) ∧
    ((run envParseErr).2 =
      Except.error
        (RunError.jsonDecodeError ("package.json: " ++ "Expecting value") packageJsonPathStr 2) ∧
     countProc (run envParseErr).1 ["node", "--version"] = 0 ∧
     countProc (run envParseErr).1 [PACKAGE_MGR, "--version"] = 0) :=
  ⟨rfl, claim1_parse_error_aborts envParseErr { msg := "Expecting value", pos := 2 } rfl⟩

/-! ## Claim C4 -/

/-- C4: after every run of the entry point — normal return or any raised
exception at any step — the process working directory equals its value
from before the run. -/
theorem claim4_cwd_restored (env : Env) (s : OsState) :
    (hookEntry env s).finalState.cwd = s.cwd := rfl

/-! ## Claim C8 -/

/-- C8: the logging call splits the message into lines, writes exactly
the non-blank lines (those with a non-whitespace character), each
prefixed by the indent spaces and terminated by the platform line
separator, in original order, and flushes once after the batch. -/
theorem claim8_msg_log_filters_blank_lines (msg : String) (indent : Nat) :
    msg_log msg indent =
      ((pySplitlines msg).filter fun l => l.toList.any fun c => !isPySpace c).map
        (fun l => Event.write (spaces indent ++ l ++ os_linesep)) ++ [Event.flush] :=
  msg_log_eq_filter_map msg indent

/-! ## Claim C10 -/

/-- C10: if the manifest file cannot be opened at all, the underlying
file-system error propagates out of `_run` unchanged — it is neither the
distinguished parse error nor the distinguished build error kind. -/
theorem claim10_open_failure_propagates (env : Env) (e : OSErr)
    (h : env.pkgJsonOpen = Except.error e) :
    (run env).2 = Except.error (RunError.osError e) ∧
    RunError.isBuildError (RunError.osError e) = false ∧
    RunError.isJsonDecodeError (RunError.osError e) = false := by
  refine ⟨?_, rfl, rfl⟩
  rw [run_snd]
  unfold runOutcome
  rw [h]

/-- An environment where opening the manifest raises `FileNotFoundError`. -/
def envOpenErr : Env :=
  { baseEnv with pkgJsonOpen := Except.error { msg := "No such file or directory" } }

/-- Witness for C10 at a concrete environment. -/
theorem claim10_witness :
    envOpenErr.pkgJsonOpen = Except.error { msg := "No such file or directory" } ∧
    ((run envOpenErr).2 = Except.error (RunError.osError { msg := "No such file or directory" }) ∧
     RunError.isBuildError (RunError.osError { msg := "No such file or directory" }) = false ∧
     RunError.isJsonDecodeError (RunError.osError { msg := "No such file or directory" }) = false) :=
  ⟨rfl, claim10_open_failure_propagates envOpenErr { msg := "No such file or directory" } rfl⟩

/-! ## Claim C6 (corrected)

The claim says every fatal error — the manifest parse error, the
toolchain-missing errors and the output-missing error — is an instance of
one single distinguished error kind.  The code contradicts this: the
manifest parse error is re-raised as `json.decoder.JSONDecodeError`
(a `ValueError`), while the other fatal errors are `BuildErrorException`
(a `RuntimeError`). -/

/-- An environment whose manifest body is syntactically invalid, for the
C6 counterexample. -/
def envParse6 : Env :=
  { baseEnv with pkgJsonOpen := Except.ok (Except.error { msg := "Extra data", pos := 9 }) }

/-- C6 counterexample: on a manifest parse failure the orchestrator
raises a `JSONDecodeError`, which is not the distinguished
`BuildErrorException` kind used for the toolchain and output errors, so
the fatal errors are not one single error kind. -/
theorem claim6_counterexample :
    (run envParse6).2 =
      Except.error
        (RunError.jsonDecodeError ("package.json: " ++ "Extra data") packageJsonPathStr 9) ∧
    outcomeIsBuildError (run envParse6).2 = false := by
  have hrun : (run envParse6).2 =
      Except.error
        (RunError.jsonDecodeError ("package.json: " ++ "Extra data") packageJsonPathStr 9) := by
    rw [run_snd]
    rfl
  refine ⟨hrun, ?_⟩
  rw [hrun]
  rfl

/-- C6 amended: the toolchain-missing and output-missing fatal errors are
instances of the single distinguished `BuildErrorException` kind carrying
one of its three messages, while the manifest parse error is a separate
kind — a `JSONDecodeError` carrying the manifest path and original
position — which arises only from a manifest parse failure. -/
theorem claim6_error_kinds_amended (env : Env) (e : RunError)
    (h : (run env).2 = Except.error e) :
    (∀ m, e = RunError.buildError m →
      m = "Could not find node - it is required for React components" ∨
      m = "Could not find " ++ PACKAGE_MGR ++ " - it is required to install node packages" ∨
      m = "Failed to create output directory") ∧
    (∀ msg doc pos, e = RunError.jsonDecodeError msg doc pos →
      doc = packageJsonPathStr ∧
      ∃ exc, env.pkgJsonOpen = Except.ok (Except.error exc) ∧
        msg = "package.json: " ++ exc.msg ∧ pos = exc.pos) := by
  rw [run_snd] at h
  unfold runOutcome afterInstallOutcome buildPhaseOutcome at h
  rcases hpj : env.pkgJsonOpen with e0 | (exc | pkg) <;> simp only [hpj] at h
  · injection h with h2
    subst h2
    exact ⟨(fun m hm => nomatch hm), (fun msg doc pos hm => nomatch hm)⟩
  · injection h with h2
    subst h2
    refine ⟨(fun m hm => nomatch hm), fun msg doc pos hm => ?_⟩
    injection hm with h1 h2 h3
    exact ⟨h2.symm, exc, rfl, h1.symm, h3.symm⟩
  · rcases hn : env.nodeRun with e0 | rn <;> simp only [hn] at h
    · injection h with h2
      subst h2
      exact ⟨(fun m hm => nomatch hm), (fun msg doc pos hm => nomatch hm)⟩
    · by_cases hrn : rn.returncode = 0
      · rw [if_neg (by simp [hrn])] at h
        rcases hm : env.npmRun with e0 | rm <;> simp only [hm] at h
        · injection h with h2
          subst h2
          exact ⟨(fun m hm2 => nomatch hm2), (fun msg doc pos hm2 => nomatch hm2)⟩
        · by_cases hrm : rm.returncode = 0
          · rw [if_neg (by simp [hrm])] at h
            rcases hi : env.installRun with e0 | ri <;> simp only [hi] at h
            · injection h with h2
              subst h2
              exact ⟨(fun m hm2 => nomatch hm2), (fun msg doc pos hm2 => nomatch hm2)⟩
            · by_cases hfix : pyStrIn ("npm audit fix") ri.stdout = true
              · rw [if_pos hfix] at h
                rcases ha : env.auditRun with e0 | ra <;> simp only [ha] at h
                · injection h with h2
                  subst h2
                  exact ⟨(fun m hm2 => nomatch hm2), (fun msg doc pos hm2 => nomatch hm2)⟩
                · rcases hb : env.buildRun with e0 | rb <;> simp only [hb] at h
                  · injection h with h2
                    subst h2
                    exact ⟨(fun m hm2 => nomatch hm2), (fun msg doc pos hm2 => nomatch hm2)⟩
                  · rcases hd : env.buildDirExistsAfter <;> simp only [hd] at h
                    · rw [if_neg (by simp)] at h
                      injection h with h2
                      subst h2
                      refine ⟨fun m hm2 => ?_, fun msg doc pos hm2 => nomatch hm2⟩
                      injection hm2 with h3
                      exact Or.inr (Or.inr h3.symm)
                    · simp at h
              · rw [if_neg hfix] at h
                rcases hb : env.buildRun with e0 | rb <;> simp only [hb] at h
                · injection h with h2
                  subst h2
                  exact ⟨(fun m hm2 => nomatch hm2), (fun msg doc pos hm2 => nomatch hm2)⟩
                · rcases hd : env.buildDirExistsAfter <;> simp only [hd] at h
                  · rw [if_neg (by simp)] at h
                    injection h with h2
                    subst h2
                    refine ⟨fun m hm2 => ?_, fun msg doc pos hm2 => nomatch hm2⟩
                    injection hm2 with h3
                    exact Or.inr (Or.inr h3.symm)
                  · simp at h
          · rw [if_pos (by simpa using hrm)] at h
            injection h with h2
            subst h2
            refine ⟨fun m hm2 => ?_, fun msg doc pos hm2 => nomatch hm2⟩
            injection hm2 with h3
            exact Or.inr (Or.inl h3.symm)
      · rw [if_pos (by simpa using hrn)] at h
        injection h with h2
        subst h2
        refine ⟨fun m hm2 => ?_, fun msg doc pos hm2 => nomatch hm2⟩
        injection hm2 with h3
        exact Or.inl h3.symm

/-- An environment where the output directory is missing after the
build, all earlier steps succeeding. -/
def envOutMissing : Env := { baseEnv with buildDirExistsAfter := false }

/-- Witness for the amended C6 at a concrete erroring environment. -/
theorem claim6_witness :
    (run envOutMissing).2 =
      Except.error (RunError.buildError ("Failed to create output directory")) ∧
    ("Failed to create output directory" =
        "Could not find node - it is required for React components" ∨
     "Failed to create output directory" =
        "Could not find " ++ PACKAGE_MGR ++ " - it is required to install node packages" ∨
     "Failed to create output directory" = "Failed to create output directory") := by
  have hrun : (run envOutMissing).2 =
      Except.error (RunError.buildError ("Failed to create output directory")) := by
    rw [run_snd]
    rfl
  exact ⟨hrun,
    (claim6_error_kinds_amended envOutMissing
      (RunError.buildError ("Failed to create output directory")) hrun).1
      ("Failed to create output directory") rfl⟩

/-! ## Claim C5 (corrected)

The claim says a failing `node --version` — non-zero exit code or
invocation error — makes the orchestrator raise the distinguished
toolchain-missing `BuildErrorException`.  The non-zero-exit half is what
the code does, but an invocation error (`subprocess.run` itself raising,
e.g. `FileNotFoundError` when `node` is not on the `PATH`) is caught
nowhere, so the OS error propagates and no `BuildErrorException` is
raised.  In both failure modes `npm --version` is never invoked. -/

/-- An environment where launching `node --version` itself raises. -/
def envNodeOSErr : Env :=
  { baseEnv with nodeRun := Except.error { msg := "No such file or directory" } }

/-- C5 counterexample: an invocation error of the runtime version check
propagates as the OS error; the distinguished build error is not raised. -/
theorem claim5_counterexample :
    (run envNodeOSErr).2 =
      Except.error (RunError.osError { msg := "No such file or directory" }) ∧
    outcomeIsBuildError (run envNodeOSErr).2 = false ∧
    countProc (run envNodeOSErr).1 [PACKAGE_MGR, "--version"] = 0 := by
  have hrun : (run envNodeOSErr).2 =
      Except.error (RunError.osError { msg := "No such file or directory" }) := by
    rw [run_snd]
    rfl
  refine ⟨hrun, by rw [hrun]; rfl, ?_⟩
  rfl

/-- C5 amended: if the `node --version` subprocess returns a non-zero
exit code, `_run` raises the distinguished `BuildErrorException`
("Could not find node ...") and `npm --version` is never invoked; if the
invocation itself raises an OS error, that error propagates instead of
the distinguished error, and `npm --version` is still never invoked. -/
theorem claim5_toolchain_amended (env : Env) (pkg : List (String × JsonValue))
    (hp : env.pkgJsonOpen = Except.ok (Except.ok pkg)) :
    (∀ rn, env.nodeRun = Except.ok rn → rn.returncode ≠ 0 →
      ((run env).2 =
         Except.error
           (RunError.buildError ("Could not find node - it is required for React components")) ∧
       countProc (run env).1 [PACKAGE_MGR, "--version"] = 0)) ∧
    (∀ e, env.nodeRun = Except.error e →
      ((run env).2 = Except.error (RunError.osError e) ∧
       countProc (run env).1 [PACKAGE_MGR, "--version"] = 0)) := by
  constructor
  · intro rn hn hrn
    constructor
    · rw [run_snd]
      unfold runOutcome
      simp only [hp, hn]
      rw [if_pos hrn]
    · unfold run
      simp only [runStep_fst, runStep_snd, check_package_json_snd_eq, hp,
        check_node_installed_snd_eq, hn]
      rw [if_pos hrn]
      simp [countProc_append, countProc_check_package_json, countProc_check_need_protobuf,
        countProc_show_build, countProc_show_modules, countProc_check_node_installed,
        PACKAGE_MGR]
  · intro e hn
    constructor
    · rw [run_snd]
      unfold runOutcome
      simp only [hp, hn]
    · unfold run
      simp only [runStep_fst, runStep_snd, check_package_json_snd_eq, hp,
        check_node_installed_snd_eq, hn]
      simp [countProc_append, countProc_check_package_json, countProc_check_need_protobuf,
        countProc_show_build, countProc_show_modules, countProc_check_node_installed,
        PACKAGE_MGR]

/-- An environment where `node --version` exits with code 1. -/
def envNodeFail : Env :=
  { baseEnv with nodeRun := Except.ok { returncode := 1, stdout := "", stderr := "node: error" } }

/-- Witness for the amended C5 at a concrete environment. -/
theorem claim5_witness :
    envNodeFail.nodeRun = Except.ok { returncode := 1, stdout := "", stderr := "node: error" } ∧
    ((run envNodeFail).2 =
       Except.error
         (RunError.buildError ("Could not find node - it is required for React components")) ∧
     countProc (run envNodeFail).1 [PACKAGE_MGR, "--version"] = 0) :=
  ⟨rfl,
    ((claim5_toolchain_amended envNodeFail [("version", JsonValue.str STREAMLIT_VERSION)] rfl).1
      { returncode := 1, stdout := "", stderr := "node: error" } rfl (by decide))⟩

/-! ## Claim C3 -/

/-- C3: with the run reaching the install step, the `npm audit`
subcommand is invoked exactly once if and only if the captured stdout of
the install subprocess contains the literal substring "npm audit fix";
otherwise it is never invoked. -/
theorem claim3_audit_iff_substring (env : Env) (pkg : List (String × JsonValue))
    (rn rm ri : CompletedProcess)
    (hp : env.pkgJsonOpen = Except.ok (Except.ok pkg))
    (hn : env.nodeRun = Except.ok rn) (hn0 : rn.returncode = 0)
    (hm : env.npmRun = Except.ok rm) (hm0 : rm.returncode = 0)
    (hi : env.installRun = Except.ok ri) :
    countProc (run env).1 [PACKAGE_MGR, "audit"] =
      if pyStrIn ("npm audit fix") ri.stdout then 1 else 0 := by
  unfold run
  simp only [runStep_fst, runStep_snd, check_package_json_snd_eq, hp,
    check_node_installed_snd_eq, hn, check_pkgmgr_installed_snd_eq, hm,
    run_install_snd_eq, hi, auditStep_snd_eq, run_build_snd_eq, check_build_output_ok_snd]
  rw [if_neg (by simp [hn0]), if_neg (by simp [hm0])]
  by_cases hfix : pyStrIn ("npm audit fix") ri.stdout = true
  · simp only [hfix, eq_self_iff_true, if_true]
    rcases ha : env.auditRun with e | ra <;> simp only [ha] <;>
      [skip; rcases hb : env.buildRun with e2 | rb <;> simp only [hb]] <;>
      simp [countProc_append, countProc_check_package_json, countProc_check_need_protobuf,
        countProc_show_build, countProc_show_modules, countProc_check_node_installed,
        countProc_check_pkgmgr_installed, countProc_run_install, countProc_auditStep,
        countProc_run_build, countProc_check_build_output_ok, hfix, PACKAGE_MGR]
  · rw [Bool.not_eq_true] at hfix
    simp only [hfix, Bool.false_eq_true, if_false]
    rcases hb : env.buildRun with e2 | rb <;> simp only [hb] <;>
      simp [countProc_append, countProc_check_package_json, countProc_check_need_protobuf,
        countProc_show_build, countProc_show_modules, countProc_check_node_installed,
        countProc_check_pkgmgr_installed, countProc_run_install, countProc_auditStep,
        countProc_run_build, countProc_check_build_output_ok, hfix, PACKAGE_MGR]

/-- A completed install process whose stdout suggests `npm audit fix`. -/
def installProcAudit : CompletedProcess :=
  { returncode := 0, stdout := "added 1 package; run npm audit fix to fix them", stderr := "" }

/-- An environment whose install stdout contains "npm audit fix". -/
def envAudit : Env := { baseEnv with installRun := Except.ok installProcAudit }

/-- Witness for C3 at a concrete environment. -/
theorem claim3_witness :
    envAudit.installRun = Except.ok installProcAudit ∧
    countProc (run envAudit).1 [PACKAGE_MGR, "audit"] =
      if pyStrIn ("npm audit fix") installProcAudit.stdout then 1 else 0 :=
  ⟨rfl,
    claim3_audit_iff_substring envAudit [("version", JsonValue.str STREAMLIT_VERSION)]
      okProc okProc installProcAudit rfl rfl rfl rfl rfl rfl⟩

/-! ## Claims C7 and C9 -/

/-- On a run whose pre-install checks and subprocesses all complete, the
trace is the concatenation of the traces of all ten steps (the audit
step contributes its conditional trace). -/
theorem run_fst_full (env : Env) (pkg : List (String × JsonValue))
    (rn rm ri ra : CompletedProcess)
    (hp : env.pkgJsonOpen = Except.ok (Except.ok pkg))
    (hn : env.nodeRun = Except.ok rn) (hn0 : rn.returncode = 0)
    (hm : env.npmRun = Except.ok rm) (hm0 : rm.returncode = 0)
    (hi : env.installRun = Except.ok ri)
    (ha : env.auditRun = Except.ok ra)
    (rb : CompletedProcess) (hb : env.buildRun = Except.ok rb) :
    (run env).1 =
      (check_package_json env).1 ++ (check_need_protobuf ++
        (show_msg_if_build_dir_exists env ++ (show_msg_if_modules_dir_exists env ++
          ((check_node_installed env).1 ++ ((check_pkgmgr_installed env).1 ++
            ((run_install env).1 ++ ((auditStep env ri).1 ++
              ((run_build env).1 ++ (check_build_output_ok env).1)))))))) := by
  unfold run
  simp only [runStep_fst, runStep_snd, check_package_json_snd_eq, hp,
    check_node_installed_snd_eq, hn, check_pkgmgr_installed_snd_eq, hm,
    run_install_snd_eq, hi, auditStep_snd_eq, run_build_snd_eq]
  rw [if_neg (by simp [hn0]), if_neg (by simp [hm0])]
  by_cases hfix : pyStrIn ("npm audit fix") ri.stdout = true
  · simp only [hfix, eq_self_iff_true, if_true, ha, hb]
  · rw [Bool.not_eq_true] at hfix
    simp only [hfix, Bool.false_eq_true, if_false, hb]

/-- C7: after the build subcommand completes, the run raises the
distinguished output-missing error ("Failed to create output directory")
if and only if the expected output directory does not exist; when it
exists, the success message is written to the log and the run returns
normally. -/
theorem claim7_output_check (env : Env) (pkg : List (String × JsonValue))
    (rn rm ri ra rb : CompletedProcess)
    (hp : env.pkgJsonOpen = Except.ok (Except.ok pkg))
    (hn : env.nodeRun = Except.ok rn) (hn0 : rn.returncode = 0)
    (hm : env.npmRun = Except.ok rm) (hm0 : rm.returncode = 0)
    (hi : env.installRun = Except.ok ri)
    (ha : env.auditRun = Except.ok ra)
    (hb : env.buildRun = Except.ok rb) :
    ((run env).2 = Except.ok () ↔ env.buildDirExistsAfter = true) ∧
    (env.buildDirExistsAfter = true →
      Event.write (spaces 2 ++ "Found build directory" ++ os_linesep) ∈ (run env).1) ∧
    (env.buildDirExistsAfter = false →
      (run env).2 = Except.error (RunError.buildError ("Failed to create output directory"))) := by
  have hout : (run env).2 =
      if env.buildDirExistsAfter then Except.ok ()
      else Except.error (RunError.buildError ("Failed to create output directory")) := by
    rw [run_snd]
    unfold runOutcome afterInstallOutcome buildPhaseOutcome
    simp only [hp, hn, hm, hi, ha, hb]
    rw [if_neg (by simp [hn0]), if_neg (by simp [hm0])]
    by_cases hfix : pyStrIn ("npm audit fix") ri.stdout = true
    · simp only [hfix, eq_self_iff_true, if_true]
    · rw [Bool.not_eq_true] at hfix
      simp only [hfix, Bool.false_eq_true, if_false]
  refine ⟨?_, ?_, ?_⟩
  · rw [hout]
    rcases hd : env.buildDirExistsAfter <;> simp
  · intro hd
    rw [run_fst_full env pkg rn rm ri ra hp hn hn0 hm hm0 hi ha rb hb]
    have hmem : Event.write (spaces 2 ++ "Found build directory" ++ os_linesep) ∈
        (check_build_output_ok env).1 := by
      unfold check_build_output_ok
      rw [hd]
      simp only [if_true]
      have h2 : msg_log ("Found build directory") 2 =
          [Event.write (spaces 2 ++ "Found build directory" ++ os_linesep), Event.flush] := by
        decide
      rw [h2]
      simp
    simp only [List.mem_append]
    exact Or.inr (Or.inr (Or.inr (Or.inr (Or.inr (Or.inr (Or.inr (Or.inr (Or.inr hmem))))))))
  · intro hd
    rw [hout, hd]
    simp

/-- Witnesses C7 in the success case: all steps succeed and the output
directory exists, so the run returns normally. -/
theorem claim7_witness :
    baseEnv.buildDirExistsAfter = true ∧
    ((run baseEnv).2 = Except.ok () ↔ baseEnv.buildDirExistsAfter = true) ∧
    (baseEnv.buildDirExistsAfter = true →
      Event.write (spaces 2 ++ "Found build directory" ++ os_linesep) ∈ (run baseEnv).1) :=
  ⟨rfl,
   (claim7_output_check baseEnv [("version", JsonValue.str STREAMLIT_VERSION)]
      okProc okProc okProc okProc okProc rfl rfl rfl rfl rfl rfl rfl rfl).1,
   (claim7_output_check baseEnv [("version", JsonValue.str STREAMLIT_VERSION)]
      okProc okProc okProc okProc okProc rfl rfl rfl rfl rfl rfl rfl rfl).2.1⟩

/-- C9: the exit codes of the install and build subprocesses are never
inspected: whatever `ri.returncode` and `rb.returncode` are, no exception
is raised at those steps, the build subcommand is still invoked exactly
once, and the outcome of the run is decided solely by the final
output-directory existence check. -/
theorem claim9_exit_codes_ignored (env : Env) (pkg : List (String × JsonValue))
    (rn rm ri ra rb : CompletedProcess)
    (hp : env.pkgJsonOpen = Except.ok (Except.ok pkg))
    (hn : env.nodeRun = Except.ok rn) (hn0 : rn.returncode = 0)
    (hm : env.npmRun = Except.ok rm) (hm0 : rm.returncode = 0)
    (hi : env.installRun = Except.ok ri)
    (ha : env.auditRun = Except.ok ra)
    (hb : env.buildRun = Except.ok rb) :
    countProc (run env).1 [PACKAGE_MGR, "run", "build"] = 1 ∧
    (run env).2 =
      (if env.buildDirExistsAfter then Except.ok ()
       else Except.error (RunError.buildError ("Failed to create output directory"))) := by
  constructor
  · rw [run_fst_full env pkg rn rm ri ra hp hn hn0 hm hm0 hi ha rb hb]
    by_cases hfix : pyStrIn ("npm audit fix") ri.stdout = true <;>
      simp [countProc_append, countProc_check_package_json, countProc_check_need_protobuf,
        countProc_show_build, countProc_show_modules, countProc_check_node_installed,
        countProc_check_pkgmgr_installed, countProc_run_install, countProc_auditStep,
        countProc_run_build, countProc_check_build_output_ok, hfix, PACKAGE_MGR]
  · rw [run_snd]
    unfold runOutcome afterInstallOutcome buildPhaseOutcome
    simp only [hp, hn, hm, hi, ha, hb]
    rw [if_neg (by simp [hn0]), if_neg (by simp [hm0])]
    by_cases hfix : pyStrIn ("npm audit fix") ri.stdout = true
    · simp only [hfix, eq_self_iff_true, if_true]
    · rw [Bool.not_eq_true] at hfix
      simp only [hfix, Bool.false_eq_true, if_false]

/-- An environment where install and build both return non-zero exit
codes yet the output directory exists. -/
def envNonZero : Env :=
  { baseEnv with
    installRun := Except.ok { returncode := 7, stdout := "", stderr := "warnings" },
    buildRun := Except.ok { returncode := 3, stdout := "", stderr := "warnings" } }

/-- Witness for C9: non-zero install and build exit codes do not fail
the run; the output-directory check alone decides the outcome. -/
theorem claim9_witness :
    envNonZero.installRun = Except.ok { returncode := 7, stdout := "", stderr := "warnings" } ∧
    envNonZero.buildRun = Except.ok { returncode := 3, stdout := "", stderr := "warnings" } ∧
    (countProc (run envNonZero).1 [PACKAGE_MGR, "run", "build"] = 1 ∧
     (run envNonZero).2 =
       (if envNonZero.buildDirExistsAfter then Except.ok ()
        else Except.error (RunError.buildError ("Failed to create output directory")))) :=
  ⟨rfl, rfl,
    claim9_exit_codes_ignored envNonZero [("version", JsonValue.str STREAMLIT_VERSION)]
      okProc okProc { returncode := 7, stdout := "", stderr := "warnings" } okProc
      { returncode := 3, stdout := "", stderr := "warnings" }
      rfl rfl rfl rfl rfl rfl rfl rfl⟩

/-! ## Claim C2 (corrected)

The claim also asserts that when the version differs, "exactly one
warning line containing both the found version and the expected constant
is logged".  That is what happens for every ordinary version value, but
`_msg_log` splits messages at line breaks, so for a (syntactically valid)
manifest whose version string itself contains a line break the warning is
split across lines and no single logged line contains the found version
— the count of such lines is 0, not 1. -/

/-- A write event whose text contains "WARNING". -/
def isWarningWrite (e : Event) : Bool :=
  match e with
  | Event.write s => pyStrIn ("WARNING") s
  | _ => false

/-- A write event whose text contains both `a` and `b`. -/
def writeContainsBoth (a b : String) (e : Event) : Bool :=
  match e with
  | Event.write s => pyStrIn a s && pyStrIn b s
  | _ => false

/-- No line-break character occurs in the string. -/
def singleLine (s : String) : Bool := s.toList.all fun c => !isPyLineBreak c

theorem pyStrIn_self (s : String) : pyStrIn s s = true := by
  rw [pyStrIn_iff]

theorem pyStrIn_append_right (needle a b : String) (h : pyStrIn needle a = true) :
    pyStrIn needle (a ++ b) = true := by
  rw [pyStrIn_iff] at h ⊢
  rcases h with ⟨s, t, hst⟩
  exact ⟨s, t ++ b.toList, by rw [toList_append, ← hst]; simp⟩

theorem pyStrIn_append_left (needle a b : String) (h : pyStrIn needle b = true) :
    pyStrIn needle (a ++ b) = true := by
  rw [pyStrIn_iff] at h ⊢
  rcases h with ⟨s, t, hst⟩
  exact ⟨a.toList ++ s, t, by rw [toList_append, ← hst]; simp⟩

/-- An environment whose manifest is valid but whose version string
contains a line break. -/
def envC2 : Env :=
  { baseEnv with pkgJsonOpen := Except.ok (Except.ok [("version", JsonValue.str "1.0\n.0")]) }

/-- C2 counterexample: for the valid manifest with version "1.0\n.0",
which differs from the expected constant, no exception is raised but the
warning is split across log lines, so the number of logged lines
containing both the found version and the expected constant is 0 — not
exactly one as the claim demands. -/
theorem claim2_counterexample :
    (JsonValue.str "1.0\n.0").eqStr STREAMLIT_VERSION = false ∧
    (check_package_json envC2).2 = Except.ok () ∧
    (check_package_json envC2).1.countP
      (writeContainsBoth ((JsonValue.str "1.0\n.0").pyStr) STREAMLIT_VERSION) = 0 := by
  refine ⟨rfl, rfl, ?_⟩
  decide

/-- C2 amended: for a syntactically valid manifest, a version equal to
the expected constant logs no warning; a missing version logs exactly one
warning and the run proceeds; a differing version raises no exception and
proceeds, and — provided the version string form contains no line break,
which holds for every ordinary version value — exactly one logged line
contains both the found version and the expected constant (and exactly
one warning line is logged).  A version string containing a line break is
split across log lines instead. -/
theorem claim2_version_check_amended (env : Env) (pkg : List (String × JsonValue))
    (hp : env.pkgJsonOpen = Except.ok (Except.ok pkg)) :
    (lookupField pkg ("version") = some (JsonValue.str STREAMLIT_VERSION) →
      ((check_package_json env).1.countP isWarningWrite = 0 ∧
       (check_package_json env).2 = Except.ok ())) ∧
    (∀ v, lookupField pkg ("version") = some v → v.eqStr STREAMLIT_VERSION = false →
      ((check_package_json env).2 = Except.ok () ∧
       (singleLine v.pyStr = true →
         ((check_package_json env).1.countP (writeContainsBoth v.pyStr STREAMLIT_VERSION) = 1 ∧
          (check_package_json env).1.countP isWarningWrite = 1)))) ∧
    (lookupField pkg ("version") = none →
      ((check_package_json env).1.countP isWarningWrite = 1 ∧
       (check_package_json env).2 = Except.ok ())) := by
  refine ⟨?_, ?_, ?_⟩
  · intro hl
    have hev : (check_package_json env).1 = msg_log ("Checking package.json version...") 0 := by
      unfold check_package_json
      rw [hp]
      simp only [hl]
      rw [if_neg (by decide)]
    refine ⟨?_, check_package_json_snd env pkg hp⟩
    rw [hev]
    decide
  · intro v hl hv
    refine ⟨check_package_json_snd env pkg hp, ?_⟩
    intro hsl
    have hev : (check_package_json env).1 =
        msg_log ("Checking package.json version...") 0 ++
        msg_log ("WARNING: package.json:version should be " ++ STREAMLIT_VERSION ++
          " not " ++ v.pyStr) 0 := by
      unfold check_package_json
      rw [hp]
      simp only [hl]
      rw [if_pos hv]
    have hnbV : ∀ c ∈ v.pyStr.toList, isPyLineBreak c = false := by
      unfold singleLine at hsl
      intro c hc
      have h2 := List.all_eq_true.mp hsl c hc
      simpa using h2
    have hnbC : ∀ c ∈ ("WARNING: package.json:version should be " ++ STREAMLIT_VERSION ++
        " not ").toList, isPyLineBreak c = false := by decide
    have hnb : ∀ c ∈ ("WARNING: package.json:version should be " ++ STREAMLIT_VERSION ++
        " not " ++ v.pyStr).toList, isPyLineBreak c = false := by
      intro c hc
      rw [toList_append] at hc
      rcases List.mem_append.mp hc with h1 | h2
      · exact hnbC c h1
      · exact hnbV c h2
    have hne : ("WARNING: package.json:version should be " ++ STREAMLIT_VERSION ++
        " not " ++ v.pyStr).toList ≠ [] := by
      rw [toList_append]
      intro h
      rcases List.append_eq_nil.mp h with ⟨h1, _⟩
      revert h1
      decide
    have hsplit := pySplitlines_no_break _ hnb hne
    have hany : (("WARNING: package.json:version should be " ++ STREAMLIT_VERSION ++
        " not " ++ v.pyStr).toList.any fun c => !isPySpace c) = true := by
      rw [toList_append, List.any_append]
      have h1 : (("WARNING: package.json:version should be " ++ STREAMLIT_VERSION ++
          " not ").toList.any fun c => !isPySpace c) = true := by decide
      rw [h1]
      rfl
    have hstrip : ¬(pyStrip ("WARNING: package.json:version should be " ++ STREAMLIT_VERSION ++
        " not " ++ v.pyStr) = "") := by
      intro h
      rw [pyStrip_eq_empty_iff] at h
      rw [h] at hany
      exact Bool.noConfusion hany
    have hmsg : msg_log ("WARNING: package.json:version should be " ++ STREAMLIT_VERSION ++
        " not " ++ v.pyStr) 0 =
        [Event.write (spaces 0 ++ ("WARNING: package.json:version should be " ++
           STREAMLIT_VERSION ++ " not " ++ v.pyStr) ++ os_linesep), Event.flush] := by
      unfold msg_log
      rw [hsplit]
      simp [msg_log_writes, hstrip]
    have hpre : msg_log ("Checking package.json version...") 0 =
        [Event.write (spaces 0 ++ "Checking package.json version..." ++ os_linesep),
         Event.flush] := by
      decide
    have hin_v : pyStrIn v.pyStr (spaces 0 ++ ("WARNING: package.json:version should be " ++
        STREAMLIT_VERSION ++ " not " ++ v.pyStr) ++ os_linesep) = true := by
      refine pyStrIn_append_right _ _ _ ?_
      refine pyStrIn_append_left _ _ _ ?_
      exact pyStrIn_append_left _ _ _ (pyStrIn_self _)
    have hin_sv : pyStrIn STREAMLIT_VERSION (spaces 0 ++
        ("WARNING: package.json:version should be " ++ STREAMLIT_VERSION ++ " not " ++
          v.pyStr) ++ os_linesep) = true := by
      refine pyStrIn_append_right _ _ _ ?_
      refine pyStrIn_append_left _ _ _ ?_
      refine pyStrIn_append_right _ _ _ ?_
      refine pyStrIn_append_right _ _ _ ?_
      exact pyStrIn_append_left _ _ _ (pyStrIn_self _)
    have hin_w : pyStrIn ("WARNING") (spaces 0 ++
        ("WARNING: package.json:version should be " ++ STREAMLIT_VERSION ++ " not " ++
          v.pyStr) ++ os_linesep) = true := by
      refine pyStrIn_append_right _ _ _ ?_
      refine pyStrIn_append_left _ _ _ ?_
      refine pyStrIn_append_right _ _ _ ?_
      refine pyStrIn_append_right _ _ _ ?_
      exact pyStrIn_append_right _ _ _ (by decide)
    have hfa : pyStrIn STREAMLIT_VERSION
        (spaces 0 ++ "Checking package.json version..." ++ os_linesep) = false := by decide
    have hfw : pyStrIn ("WARNING")
        (spaces 0 ++ "Checking package.json version..." ++ os_linesep) = false := by decide
    constructor
    · rw [hev, hpre, hmsg]
      simp [List.countP_append, List.countP_cons, writeContainsBoth, hin_v, hin_sv, hfa]
    · rw [hev, hpre, hmsg]
      simp [List.countP_append, List.countP_cons, isWarningWrite, hin_w, hfw]
  · intro hl
    have hev : (check_package_json env).1 =
        msg_log ("Checking package.json version...") 0 ++
        msg_log ("WARNING: package.json:version is missing, should be " ++ STREAMLIT_VERSION) 0 := by
      unfold check_package_json
      rw [hp]
      simp only [hl]
    refine ⟨?_, check_package_json_snd env pkg hp⟩
    rw [hev]
    decide

/-- An environment whose manifest declares version "1.0.0". -/
def envMismatch : Env :=
  { baseEnv with pkgJsonOpen := Except.ok (Except.ok [("version", JsonValue.str "1.0.0")]) }

/-- Witness for the amended C2 at the concrete version "1.0.0": the run
proceeds and exactly one logged line contains both "1.0.0" and
"1.42.0". -/
theorem claim2_witness :
    lookupField [("version", JsonValue.str "1.0.0")] ("version") =
      some (JsonValue.str "1.0.0") ∧
    (JsonValue.str "1.0.0").eqStr STREAMLIT_VERSION = false ∧
    singleLine (JsonValue.str "1.0.0").pyStr = true ∧
    ((check_package_json envMismatch).2 = Except.ok () ∧
     ((check_package_json envMismatch).1.countP
        (writeContainsBoth ((JsonValue.str "1.0.0").pyStr) STREAMLIT_VERSION) = 1 ∧
      (check_package_json envMismatch).1.countP isWarningWrite = 1)) := by
  have h := (claim2_version_check_amended envMismatch
    [("version", JsonValue.str "1.0.0")] rfl).2.1 (JsonValue.str "1.0.0") rfl rfl
  exact ⟨rfl, rfl, by decide, h.1, h.2 (by decide)⟩

end HatchBuild
